import Mathlib

/-!
Verification of the talons repository: instance lifecycle manager
(claw-backend: routes/instances.ts, services/instanceManager.ts,
services/docker.ts, services/configGenerator.ts) and the gateway
protocol client (claw-android GatewayClient).

The backend source files concatenate several historical versions of each
module; the embeddings below follow the latest version of each file
(the one the spec's line references point at). The legacy config
generator from the unnamed part_004 file is embedded separately as
`generateConfigLegacy`.
-/

/-! ## A small JSON value model

Mirrors the ad hoc JSON dictionaries used by the source (JS objects /
org.json.JSONObject). Objects are association lists in insertion order;
assignment (`setKey`) replaces an existing key in place or appends,
matching JS object field-assignment semantics. -/

inductive Json where
  | null
  | bool (b : Bool)
  | num (n : Int)
  | str (s : String)
  | arr (xs : List Json)
  | obj (fields : List (String × Json))

/-- Field lookup in an association list (first match), as JS property read. -/
def lookupKey : List (String × Json) → String → Option Json
  | [], _ => none
  | (k', v) :: rest, k => if k' = k then some v else lookupKey rest k

/-- Field assignment: replace in place if the key exists, else append
(JS object assignment keeps the original key position). -/
def setKey : List (String × Json) → String → Json → List (String × Json)
  | [], k, v => [(k, v)]
  | (k', v') :: rest, k, v =>
      if k' = k then (k, v) :: rest else (k', v') :: setKey rest k v

/-- Property read on a JSON value: `none` unless the value is an object
holding the key. -/
def Json.lookup : Json → String → Option Json
  | .obj fs, k => lookupKey fs k
  | _, _ => none

/-- `optString(key, default)`: the string value at `key`, else the default.
(org.json additionally coerces scalar values to strings; no scalar
coercion can produce any of the keyword strings compared against in the
client, so non-strings map to the default here.) -/
def Json.optStringD (j : Json) (k d : String) : String :=
  match j.lookup k with
  | some (.str s) => s
  | _ => d

/-- `optJSONObject(key)`: the object at `key`, or null for non-objects. -/
def Json.optJSONObject (j : Json) (k : String) : Option Json :=
  match j.lookup k with
  | some (.obj fs) => some (.obj fs)
  | _ => none

/-- `optBoolean(key, false)`. -/
def Json.optBool (j : Json) (k : String) : Bool :=
  match j.lookup k with
  | some (.bool b) => b
  | _ => false

/-- `has(key)`. -/
def Json.hasKey (j : Json) (k : String) : Bool :=
  (j.lookup k).isSome

/-- JS truthiness of a JSON value (`undefined` is modelled as a missing
key, i.e. an `Option` at the use sites). -/
def jTruthy : Json → Bool
  | .null => false
  | .bool b => b
  | .num n => n != 0
  | .str s => s != ""
  | .arr _ => true
  | .obj _ => true

/-- JS `a || d` where `a` is an optional JSON field. -/
def jsOr (v : Option Json) (d : Json) : Json :=
  match v with
  | some x => if jTruthy x then x else d
  | none => d

/-- JS `s || d` for an optional string (empty string is falsy). -/
def strOr (v : Option String) (d : String) : String :=
  match v with
  | some s => if s = "" then d else s
  | none => d

/-- The fields of an optional JSON value after `x || {}`: falsy or
missing values become the empty object. (A truthy non-object here would
make the JS code throw on the subsequent property assignment; the
well-formedness predicate `WfDoc` used by the theorems rules that out.) -/
def objFieldsOr (v : Option Json) : List (String × Json) :=
  match v with
  | some (.obj fs) => fs
  | _ => []

/-! ## Backend data model (claw-backend, Prisma `Instance` + Docker) -/

inductive InstanceStatus where
  | PENDING | STARTING | RUNNING | STOPPED | ERROR | DELETED
deriving Repr, DecidableEq

/-- One persisted Instance row (prisma schema fields used by the core). -/
structure InstanceRec where
  id : String
  userId : String
  containerId : Option String
  dockerPort : Nat
  status : InstanceStatus
  openclawVersion : String
  configJson : Json
  gatewayToken : String

/-- A container known to the Docker runtime, abstracted to what the port
allocator reads from `listContainers({all:true})`: its published host
ports and whether it is running. -/
structure DockerContainer where
  running : Bool
  ports : List Nat

/-- `getUsedDockerPorts` (docker.ts): the published ports of ALL
containers, running or stopped (`p.PublicPort` truthy, i.e. nonzero). -/
def getUsedDockerPorts (cs : List DockerContainer) : List Nat :=
  cs.flatMap (fun c => c.ports.filter (fun p => p != 0))

/-- A port is free when it is neither bound by any container known to
Docker nor recorded against a non-DELETED instance
(instanceManager.ts `getAvailablePort` body). -/
def isFreePort (cs : List DockerContainer) (insts : List InstanceRec) (p : Nat) : Bool :=
  !((getUsedDockerPorts cs).contains p) &&
  !(((insts.filter (fun i => !(i.status == .DELETED))).map (fun i => i.dockerPort)).contains p)

/-- The `for (let port = base; port < base + max; port++)` scan:
first port satisfying `free`, else none. -/
def scanPorts (free : Nat → Bool) : Nat → Nat → Option Nat
  | _, 0 => none
  | p, n + 1 => if free p then some p else scanPorts free (p + 1) n

/-- `getAvailablePort` (instanceManager.ts lines 9-23): lowest free port
in `[basePort, basePort + maxContainers)`, or the resource-exhausted
error. -/
def getAvailablePort (basePort maxContainers : Nat)
    (cs : List DockerContainer) (insts : List InstanceRec) : Except String Nat :=
  match scanPorts (isFreePort cs insts) basePort maxContainers with
  | some p => .ok p
  | none => .error "No available ports"

/-- `CreateInstanceOptions`. -/
structure CreateInstanceOptions where
  provider : Option String := none
  apiKey : Option String := none
  model : Option String := none

/-- The world the lifecycle manager acts on: the user table (id to
subscription), the persisted instance registry and the container
runtime's containers. -/
structure World where
  users : List (String × String)
  instances : List InstanceRec
  containers : List DockerContainer

/-- Fresh identifiers drawn by `createInstance` (randomBytes / the id the
container runtime returns), supplied by the environment. -/
structure CreateIds where
  instanceId : String
  gatewayToken : String
  containerId : String

/-- `createInstance` (instanceManager.ts lines 48-131): allocate a port,
create+start a container publishing that port, and persist a RUNNING
Instance row. The container spec is abstracted to its port binding; the
onboarding command string and env vars do not feed back into any state
the claims mention. -/
def createInstanceW (basePort maxContainers : Nat)
    (w : World) (userId : String) (opts : CreateInstanceOptions) (ids : CreateIds) :
    Except String (World × InstanceRec) :=
  match getAvailablePort basePort maxContainers w.containers w.instances with
  | .error e => .error e
  | .ok port =>
    let provider := strOr opts.provider "openrouter"
    let container : DockerContainer := { running := true, ports := [port] }
    let inst : InstanceRec := {
      id := ids.instanceId
      userId := userId
      containerId := some ids.containerId
      dockerPort := port
      status := .RUNNING
      openclawVersion := "latest"
      configJson := .obj ([("provider", .str provider)] ++
        (match opts.model with | some m => [("model", .str m)] | none => []))
      gatewayToken := ids.gatewayToken }
    .ok ({ w with containers := w.containers ++ [container],
                  instances := w.instances ++ [inst] }, inst)

/-- The POST / route handler (routes/instances.ts lines 11-28): return
any existing non-DELETED instance of the tenant unchanged, else run
`createInstance`. -/
def postInstances (basePort maxContainers : Nat) (w : World)
    (userId : String) (opts : CreateInstanceOptions) (ids : CreateIds) :
    World × Except String InstanceRec :=
  match w.instances.find? (fun i => i.userId == userId && !(i.status == .DELETED)) with
  | some existing => (w, .ok existing)
  | none =>
    match createInstanceW basePort maxContainers w userId opts ids with
    | .ok (w', inst) => (w', .ok inst)
    | .error e => (w, .error e)

/-- `prisma.instance.update({where:{id}, data:{status}})`: throws when no
row matches, else rewrites the matching row. -/
def updateInstanceStatus (db : List InstanceRec) (id : String) (st : InstanceStatus) :
    Except String (List InstanceRec) :=
  if db.any (fun r => r.id == id) then
    .ok (db.map (fun r => if r.id == id then { r with status := st } else r))
  else .error "Record to update not found"

/-- `deleteInstance` (instanceManager.ts lines 188-203): best-effort
stop+remove inside a try/catch whose only effect is a log line, then
unconditionally persist status DELETED. `stopFails` / `removeFails`
model the container runtime throwing from `stop()` / `remove()`. -/
def deleteInstance (db : List InstanceRec) (inst : InstanceRec)
    (stopFails removeFails : Bool) : Except String (List InstanceRec × List String) :=
  let cleanupLog : List String :=
    match inst.containerId with
    | none => []
    | some cid =>
      if stopFails then ["Failed to remove container: stop " ++ cid]
      else if removeFails then ["Failed to remove container: remove " ++ cid]
      else []
  match updateInstanceStatus db inst.id .DELETED with
  | .ok db' => .ok (db', cleanupLog)
  | .error e => .error e

/-! ## Config materializer (configGenerator.ts, latest version; plus the
legacy variant from the unnamed part_004 file) -/

structure TelegramCreds where
  botToken : String

structure WhatsappCreds where
  phoneNumberId : String
  accessToken : String
  verifyToken : String

structure DiscordCreds where
  botToken : String

structure ChannelConfig where
  telegram : Option TelegramCreds := none
  whatsapp : Option WhatsappCreds := none
  discord : Option DiscordCreds := none

structure ClawConfig where
  model : Option String := none
  apiKey : Option String := none
  provider : Option String := none
  channels : Option ChannelConfig := none

/-- `String.startsWith`, computed on the character lists (same
semantics; stated this way so concrete instances evaluate). -/
def strStartsWith (s p : String) : Bool :=
  p.data.isPrefixOf s.data

/-- The default model and the provider inferred from the model string in
`generateConfig` (both versions share these lines). -/
def inferProvider (explicitProvider : Option String) (model : String) : String :=
  let provider0 := strOr explicitProvider "openrouter"
  if strStartsWith model "anthropic/" then "anthropic"
  else if strStartsWith model "openai/" || strStartsWith model "gpt-" then "openai"
  else if strStartsWith model "openrouter/" then "openrouter"
  else provider0

/-- `generateConfig` (configGenerator.ts lines 390-465, latest version):
builds the openclaw.json-shaped document. `freeKey` is the operator's
pooled `OPENROUTER_FREE_KEY` environment value. -/
def generateConfig (freeKey : String) (subscription : String) (userConfig : ClawConfig) : Json :=
  let isFree := subscription = "FREE"
  let model := strOr userConfig.model
    (if isFree then "openrouter/auto" else "anthropic/claude-sonnet-4-20250514")
  let apiKey := if isFree then freeKey else strOr userConfig.apiKey ""
  let provider := inferProvider userConfig.provider model
  let providerEntry : Json := .obj
    ([("apiKey", .str apiKey)] ++
     (if provider = "openrouter" then
        [("baseUrl", .str "https://openrouter.ai/api/v1"),
         ("api", .str "openai-completions")] else []) ++
     (if provider = "anthropic" then [("api", .str "anthropic-messages")] else []) ++
     (if provider = "openai" then [("api", .str "openai-responses")] else []))
  let channelFields : List (String × Json) :=
    (match userConfig.channels.bind (fun c => c.telegram) with
     | some tg =>
        [("telegram", .obj [("enabled", .bool true),
                            ("botToken", .str tg.botToken),
                            ("dmPolicy", .str "pairing"),
                            ("groupPolicy", .str "allowlist")])]
     | none => []) ++
    (match userConfig.channels.bind (fun c => c.whatsapp) with
     | some wa =>
        [("whatsapp", .obj [("enabled", .bool true),
                            ("phoneNumberId", .str wa.phoneNumberId),
                            ("accessToken", .str wa.accessToken),
                            ("verifyToken", .str wa.verifyToken)])]
     | none => []) ++
    (match userConfig.channels.bind (fun c => c.discord) with
     | some dc =>
        [("discord", .obj [("enabled", .bool true),
                           ("token", .str dc.botToken),
                           ("dmPolicy", .str "pairing"),
                           ("groupPolicy", .str "disabled")])]
     | none => [])
  .obj [("models", .obj [("providers", .obj [(provider, providerEntry)])]),
        ("agents", .obj [("defaults", .obj
          [("model", .obj [("primary", .str model)]),
           ("maxConcurrent", .num 2)])]),
        ("channels", .obj channelFields),
        ("commands", .obj [("native", .str "auto")])]

/-- The regex `^(openrouter|anthropic|openai)\//` removal used by the
legacy generator in part_004. -/
def stripModelNamespace (m : String) : String :=
  if strStartsWith m "openrouter/" then String.mk (m.data.drop 11)
  else if strStartsWith m "anthropic/" then String.mk (m.data.drop 10)
  else if strStartsWith m "openai/" then String.mk (m.data.drop 7)
  else m

/-- `generateConfig` from the unnamed part_004 file (legacy variant,
lines 30-80): `llm` block with the namespace stripped off the model, and
channel blocks without policy fields. The free-tier default model there
is `DEFAULT_FREE_MODEL = 'openrouter/free'`. -/
def generateConfigLegacy (freeKey : String) (subscription : String)
    (userConfig : ClawConfig) : Json :=
  let isFree := subscription = "FREE"
  let model := strOr userConfig.model
    (if isFree then "openrouter/free" else "anthropic/claude-sonnet-4-20250514")
  let apiKey := if isFree then freeKey else strOr userConfig.apiKey ""
  let provider := inferProvider userConfig.provider model
  let llm : Json := .obj
    ([("provider", .str provider),
      ("model", .str (stripModelNamespace model))] ++
     (if provider = "openrouter" then [("apiKey", .str apiKey)] else []) ++
     (if provider = "anthropic" then [("apiKey", .str apiKey)] else []) ++
     (if provider = "openai" then [("apiKey", .str apiKey)] else []))
  let channelFields : List (String × Json) :=
    (match userConfig.channels.bind (fun c => c.telegram) with
     | some tg =>
        [("telegram", .obj [("enabled", .bool true),
                            ("botToken", .str tg.botToken)])]
     | none => []) ++
    (match userConfig.channels.bind (fun c => c.whatsapp) with
     | some wa =>
        [("whatsapp", .obj [("enabled", .bool true),
                            ("phoneNumberId", .str wa.phoneNumberId),
                            ("accessToken", .str wa.accessToken),
                            ("verifyToken", .str wa.verifyToken)])]
     | none => []) ++
    (match userConfig.channels.bind (fun c => c.discord) with
     | some dc =>
        [("discord", .obj [("enabled", .bool true),
                           ("botToken", .str dc.botToken)])]
     | none => [])
  .obj [("llm", llm), ("channels", .obj channelFields)]

/-! ### The in-memory merge performed by `updateInstanceConfig`
(configGenerator.ts lines 500-556, latest version). The surrounding IO
(read the container file, write it back, persist the user-facing
choices, restart the container) carries the merged document through
unchanged; the claims are about the merge itself, which acts on the
parsed existing document. -/

/-- The object assigned to `existing.channels.telegram` by the telegram
merge step: spread of the old telegram object, then enabled, botToken,
and the policy fields (pre-existing truthy values win, else
pairing / allowlist). -/
def mergedTelegramFields (fs : List (String × Json)) (tg : TelegramCreds) :
    List (String × Json) :=
  let ch := objFieldsOr (lookupKey fs "channels")
  let oldTg := objFieldsOr (lookupKey ch "telegram")
  setKey (setKey (setKey (setKey oldTg
    "enabled" (.bool true))
    "botToken" (.str tg.botToken))
    "dmPolicy" (jsOr (lookupKey oldTg "dmPolicy") (.str "pairing")))
    "groupPolicy" (jsOr (lookupKey oldTg "groupPolicy") (.str "allowlist"))

/-- The telegram merge step: only runs when the delta carries telegram
credentials. -/
def mergeTelegram (fs : List (String × Json)) (u : ClawConfig) : List (String × Json) :=
  match u.channels.bind (fun c => c.telegram) with
  | none => fs
  | some tg =>
    let ch := objFieldsOr (lookupKey fs "channels")
    setKey fs "channels" (.obj (setKey ch "telegram" (.obj (mergedTelegramFields fs tg))))

/-- The unconditional `existing.gateway.bind = 'lan'` step. -/
def mergeGatewayBind (fs : List (String × Json)) : List (String × Json) :=
  let gw := objFieldsOr (lookupKey fs "gateway")
  setKey fs "gateway" (.obj (setKey gw "bind" (.str "lan")))

/-- The object assigned to `existing.channels.discord` by the discord
merge step: dmPolicy and groupPolicy are hardcoded to 'pairing' /
'disabled' (pre-existing values are overwritten). -/
def mergedDiscordFields (fs : List (String × Json)) (dc : DiscordCreds) :
    List (String × Json) :=
  let ch := objFieldsOr (lookupKey fs "channels")
  let oldDc := objFieldsOr (lookupKey ch "discord")
  setKey (setKey (setKey (setKey oldDc
    "enabled" (.bool true))
    "token" (.str dc.botToken))
    "dmPolicy" (.str "pairing"))
    "groupPolicy" (.str "disabled")

/-- The discord merge step. -/
def mergeDiscord (fs : List (String × Json)) (u : ClawConfig) : List (String × Json) :=
  match u.channels.bind (fun c => c.discord) with
  | none => fs
  | some dc =>
    let ch := objFieldsOr (lookupKey fs "channels")
    setKey fs "channels" (.obj (setKey ch "discord" (.obj (mergedDiscordFields fs dc))))

/-- The model merge step: `if (userConfig.model)` (truthy check). -/
def mergeModel (fs : List (String × Json)) (u : ClawConfig) : List (String × Json) :=
  match u.model with
  | none => fs
  | some m =>
    if m = "" then fs
    else
      let ag := objFieldsOr (lookupKey fs "agents")
      let df := objFieldsOr (lookupKey ag "defaults")
      let mo := objFieldsOr (lookupKey df "model")
      setKey fs "agents" (.obj (setKey ag "defaults" (.obj (setKey df "model"
        (.obj (setKey mo "primary" (.str m)))))))

/-- The full in-memory merge of `updateInstanceConfig`, in source order:
telegram, gateway.bind, discord, model. -/
def mergeConfig (fs : List (String × Json)) (u : ClawConfig) : List (String × Json) :=
  mergeModel (mergeDiscord (mergeGatewayBind (mergeTelegram fs u)) u) u

/-- Well-formedness of an existing document for the merge: every field
the merge drills into is an object when present (a truthy non-object
would make the JS code throw on property assignment). -/
def WfDoc (fs : List (String × Json)) : Prop :=
  (∀ v, lookupKey fs "channels" = some v → ∃ cfs, v = Json.obj cfs) ∧
  (∀ cfs, lookupKey fs "channels" = some (Json.obj cfs) →
    (∀ v, lookupKey cfs "telegram" = some v → ∃ t, v = Json.obj t) ∧
    (∀ v, lookupKey cfs "discord" = some v → ∃ d, v = Json.obj d)) ∧
  (∀ v, lookupKey fs "gateway" = some v → ∃ g, v = Json.obj g) ∧
  (∀ v, lookupKey fs "agents" = some v → ∃ a, v = Json.obj a)

/-! ## Gateway protocol client (claw-android GatewayClient, latest
version of the `com.claw.app.data.remote` file: challenge-gated
handshake, PROTOCOL_VERSION = 3).

The client is embedded as a state machine: each listener callback / API
entry point is a pure step function returning the next client state and
the list of externally visible actions it performs (socket opens, frame
sends, socket close, awaiter completions, emitted GatewayEvents). The
coroutine launched by `sendConnectRequest` (which flips the state to
Connected / Error when the connect awaiter completes) is modelled by the
`pendingConnectId` field: completing that awaiter in `handleResponse`
performs the state flip. -/

inductive ConnState where
  | Disconnected
  | Connecting
  | WaitingForChallenge
  | Authenticating
  | Connected
  | Error (message : String)
deriving Repr, DecidableEq

/-- `is Connected` check. -/
def ConnState.isConnected : ConnState → Bool
  | .Connected => true
  | _ => false

/-- The guard at the top of `connect()`: Connecting, WaitingForChallenge,
Authenticating or Connected. -/
def ConnState.isBusy : ConnState → Bool
  | .Connecting | .WaitingForChallenge | .Authenticating | .Connected => true
  | _ => false

/-- `GatewayEvent` sealed class. -/
inductive GEvent where
  | helloOk (payload : Json)
  | health (payload : Json)
  | agent (payload : Json)
  | shutdown (reason : String)
  | tick
  | seqGap (expected : Int) (received : Int)
  | generic (event : String) (payload : Option Json)
  | unknown (raw : Json)

/-- Externally visible effects of one step. -/
inductive ClientAct where
  | openSocket (url : String)
  | sendFrame (frame : Json)
  | closeSocket (code : Int) (reason : String)
  | resolveAwaiter (id : String)
  | failAwaiter (id : String) (err : String)
  | emit (e : GEvent)

/-- Client-side mutable state of `GatewayClient`. -/
structure GatewayClient where
  connState : ConnState
  webSocket : Option Nat
  pending : List String
  pendingConnectId : Option String
  authToken : Option String
  lastSeq : Option Int

def initClient : GatewayClient :=
  { connState := .Disconnected, webSocket := none, pending := [],
    pendingConnectId := none, authToken := none, lastSeq := none }

/-- URL normalization in `connect()`. -/
def normalizeWsUrl (url : String) : String :=
  (((url.replace "http://" "ws://").replace "https://" "wss://")).dropRightWhile (· = '/')

/-- `connect(url, token)` (lines 366-416): no-op while busy; otherwise
store the token, go Connecting and open the socket. `handle` is the
fresh socket handle the OkHttp client returns. -/
def GatewayClient.connect (c : GatewayClient) (url : String) (token : Option String)
    (handle : Nat) : GatewayClient × List ClientAct :=
  if c.connState.isBusy then (c, [])
  else
    ({ c with authToken := token, connState := .Connecting, webSocket := some handle },
     [.openSocket (normalizeWsUrl url)])

/-- `onOpen`: do NOT send connect; only enter WaitingForChallenge. -/
def GatewayClient.onOpen (c : GatewayClient) : GatewayClient × List ClientAct :=
  ({ c with connState := .WaitingForChallenge }, [])

/-- The connection state once a teardown's `flushPendingErrors` has
settled. The handler itself assigns `base`; but failing an outstanding
connect awaiter resumes the coroutine launched by `sendConnectRequest`,
whose catch then overwrites the state with
Error("Handshake failed: <message of the cause>") — `causeMsg` is the
interpolated message of the exception the flush delivered (Kotlin
renders a null message as the string "null"). -/
def teardownState (c : GatewayClient) (base : ConnState) (causeMsg : String) :
    ConnState :=
  match c.pendingConnectId with
  | some _ => .Error ("Handshake failed: " ++ causeMsg)
  | none => base

/-- `onFailure`: state Error(message ?: "Connection failed"), fail and
clear every pending awaiter (`flushPendingErrors`); a connect awaiter
failed by the flush leaves Error("Handshake failed: <t.message>"). -/
def GatewayClient.onFailure (c : GatewayClient) (msg : Option String) :
    GatewayClient × List ClientAct :=
  ({ c with connState := teardownState c (.Error (msg.getD "Connection failed"))
              (msg.getD "null"),
            pending := [], pendingConnectId := none },
   c.pending.map (fun id => ClientAct.failAwaiter id (msg.getD "Connection failed")))

/-- `onClosed`: state Disconnected, fail and clear every pending
awaiter; a connect awaiter failed by the flush leaves
Error("Handshake failed: Connection closed: <code> <reason>"). -/
def GatewayClient.onClosed (c : GatewayClient) (code : Int) (reason : String) :
    GatewayClient × List ClientAct :=
  ({ c with connState := teardownState c .Disconnected
              ("Connection closed: " ++ toString code ++ " " ++ reason),
            pending := [], pendingConnectId := none },
   c.pending.map (fun id => ClientAct.failAwaiter id
     ("Connection closed: " ++ toString code ++ " " ++ reason)))

/-- The fixed client identity block of the connect request. -/
def connectClientInfo : Json :=
  .obj [("id", .str "gateway-client"),
        ("displayName", .str "Talon Mission Control"),
        ("version", .str "1.0.0"),
        ("platform", .str "android"),
        ("mode", .str "backend")]

/-- The ConnectParams built by `sendConnectRequest`: min=max=protocol 3,
client identity, role, scopes, caps, and an auth block only when a
token was supplied to `connect()`. (The challenge nonce is not echoed.) -/
def connectParams (authToken : Option String) : Json :=
  .obj ([("minProtocol", .num 3), ("maxProtocol", .num 3),
         ("client", connectClientInfo),
         ("role", .str "operator"),
         ("scopes", .arr [.str "operator.admin"]),
         ("caps", .arr [])] ++
        (match authToken with
         | some t => [("auth", .obj [("token", .str t)])]
         | none => []))

/-- An outbound request frame `{type:"req", id, method, params}`. -/
def reqFrame (id method : String) (params : Json) : Json :=
  .obj [("type", .str "req"), ("id", .str id),
        ("method", .str method), ("params", params)]

/-- `sendConnectRequest` (lines 507-558): send exactly one connect
request and register its awaiter; the launched coroutine that waits on
it is recorded as `pendingConnectId`. The nonce is received but not put
into the frame. -/
def GatewayClient.sendConnectRequest (c : GatewayClient) (freshId : String) :
    GatewayClient × List ClientAct :=
  ({ c with pending := c.pending ++ [freshId], pendingConnectId := some freshId },
   [.sendFrame (reqFrame freshId "connect" (connectParams c.authToken))])

/-- The `when (eventName)` dispatch at the bottom of `handleEvent`. -/
def GatewayClient.dispatchEvent (c : GatewayClient) (eventName : String)
    (payload : Option Json) (freshId : String) : GatewayClient × List ClientAct :=
  if eventName = "connect.challenge" then
    -- nonce := payload?.optString("nonce"); null only when payload is null
    match payload with
    | some _ =>
        let c2 := { c with connState := ConnState.Authenticating }
        c2.sendConnectRequest freshId
    | none => (c, [])
  else if eventName = "tick" then (c, [.emit .tick])
  else if eventName = "health" then (c, [.emit (.health (payload.getD (.obj [])))])
  else if eventName = "agent" then (c, [.emit (.agent (payload.getD (.obj [])))])
  else if eventName = "shutdown" then
    (c, [.emit (.shutdown (match payload with
                           | some p => p.optStringD "reason" ""
                           | none => "unknown"))])
  else (c, [.emit (.generic eventName payload)])

/-- `handleEvent` (lines 438-481): sequence-gap tracking (`getInt`
throwing on a present non-integer seq aborts the handler, swallowed by
`onMessage`'s catch), then event dispatch. -/
def GatewayClient.handleEvent (c : GatewayClient) (json : Json) (freshId : String) :
    GatewayClient × List ClientAct :=
  let eventName := json.optStringD "event" ""
  let payload := json.optJSONObject "payload"
  if json.hasKey "seq" then
    match json.lookup "seq" with
    | some (.num seq) =>
        let gapActs : List ClientAct :=
          match c.lastSeq with
          | some prev => if seq > prev + 1 then [.emit (.seqGap (prev + 1) seq)] else []
          | none => []
        let c1 := { c with lastSeq := some seq }
        let (c2, acts) := c1.dispatchEvent eventName payload freshId
        (c2, gapActs ++ acts)
    | _ => (c, [])
  else c.dispatchEvent eventName payload freshId

/-- `handleResponse` (lines 487-501): drop unmatched ids, complete the
matching awaiter; completing the connect awaiter flips the state
(the coroutine from `sendConnectRequest`). -/
def GatewayClient.handleResponse (c : GatewayClient) (json : Json) :
    GatewayClient × List ClientAct :=
  let id := json.optStringD "id" ""
  if id = "" then (c, [])
  else if c.pending.contains id then
    let c1 := { c with pending := c.pending.filter (fun x => !(x == id)) }
    if json.optBool "ok" then
      let payload := (json.optJSONObject "payload").getD (.obj [])
      if c1.pendingConnectId = some id then
        ({ c1 with connState := .Connected, pendingConnectId := none },
         [.resolveAwaiter id, .emit (.helloOk payload)])
      else (c1, [.resolveAwaiter id])
    else
      let msg := match json.optJSONObject "error" with
                 | some e => e.optStringD "message" ""
                 | none => "Unknown error"
      if c1.pendingConnectId = some id then
        ({ c1 with connState := .Error ("Handshake failed: " ++ msg),
                   pendingConnectId := none },
         [.failAwaiter id msg])
      else (c1, [.failAwaiter id msg])
  else (c, [])

/-- `handleMessage` (lines 421-432). -/
def GatewayClient.handleMessage (c : GatewayClient) (json : Json) (freshId : String) :
    GatewayClient × List ClientAct :=
  let type := json.optStringD "type" ""
  if type = "event" then c.handleEvent json freshId
  else if type = "res" then c.handleResponse json
  else (c, [.emit (.unknown json)])

/-- `sendMethod` (lines 568-587): throws unless a socket exists and the
state is Connected; otherwise registers an awaiter and sends the frame. -/
def GatewayClient.sendMethod (c : GatewayClient) (method : String) (params : Json)
    (freshId : String) : Except String (GatewayClient × List ClientAct) :=
  match c.webSocket with
  | none => .error "Not connected to gateway"
  | some _ =>
    if c.connState.isConnected then
      .ok ({ c with pending := c.pending ++ [freshId] },
           [.sendFrame (reqFrame freshId method params)])
    else .error "Gateway not in Connected state"

/-- `disconnect()` (lines 592-598): close the socket if any, drop it, go
Disconnected, fail and clear all awaiters, reset lastSeq; a connect
awaiter failed by the flush leaves
Error("Handshake failed: Disconnected"). -/
def GatewayClient.disconnect (c : GatewayClient) : GatewayClient × List ClientAct :=
  ({ c with webSocket := none,
            connState := teardownState c .Disconnected "Disconnected",
            pending := [],
            pendingConnectId := none, lastSeq := none },
   (match c.webSocket with
    | some _ => [ClientAct.closeSocket 1000 "Client disconnect"]
    | none => []) ++
   c.pending.map (fun id => ClientAct.failAwaiter id "Disconnected"))

/-- One externally triggered step: a socket callback or an API call.
Fresh ids (UUIDs) are drawn by the environment. -/
inductive ClientInput where
  | wsOpen
  | wsMessage (json : Json) (freshId : String)
  | wsFailure (msg : Option String)
  | wsClosed (code : Int) (reason : String)
  | apiConnect (url : String) (token : Option String) (handle : Nat)
  | apiDisconnect
  | apiSendMethod (method : String) (params : Json) (freshId : String)

def stepClient (c : GatewayClient) : ClientInput → GatewayClient × List ClientAct
  | .wsOpen => c.onOpen
  | .wsMessage json freshId => c.handleMessage json freshId
  | .wsFailure msg => c.onFailure msg
  | .wsClosed code reason => c.onClosed code reason
  | .apiConnect url token handle => c.connect url token handle
  | .apiDisconnect => c.disconnect
  | .apiSendMethod m p freshId =>
      match c.sendMethod m p freshId with
      | .ok r => r
      | .error _ => (c, [])

def runClient (c : GatewayClient) : List ClientInput → GatewayClient × List ClientAct
  | [] => (c, [])
  | i :: rest =>
      let (c1, acts) := stepClient c i
      let (c2, acts2) := runClient c1 rest
      (c2, acts ++ acts2)

/-- An input that delivers a `connect.challenge` event frame. -/
def isChallengeInput : ClientInput → Bool
  | .wsMessage j _ =>
      j.optStringD "type" "" == "event" && j.optStringD "event" "" == "connect.challenge"
  | _ => false

/-- An action that sends a frame whose method is "connect". -/
def isConnectSend : ClientAct → Bool
  | .sendFrame f => f.optStringD "method" "" == "connect"
  | _ => false

/-- An action that sends any frame at all. -/
def isSendFrame : ClientAct → Bool
  | .sendFrame _ => true
  | _ => false

/-- An emitted sequence-gap notification. -/
def isGapEmit : ClientAct → Bool
  | .emit (.seqGap _ _) => true
  | _ => false

/-- An openSocket action (a reconnect attempt would have to perform one). -/
def isOpenSocket : ClientAct → Bool
  | .openSocket _ => true
  | _ => false

/-! ## Accessors used to state properties of generated documents -/

/-- `models.providers` of a generated document. -/
def providersOf (cfg : Json) : Option Json :=
  (cfg.lookup "models").bind (fun m => m.lookup "providers")

/-- `agents.defaults.model.primary` of a generated document, as a string. -/
def modelPrimary (cfg : Json) : Option String :=
  match (cfg.lookup "agents").bind (fun a => (a.lookup "defaults").bind (fun d =>
      (d.lookup "model").bind (fun m => m.lookup "primary"))) with
  | some (.str s) => some s
  | _ => none

/-- A string field of the `llm` block of a legacy-generated document. -/
def llmField (cfg : Json) (k : String) : Option String :=
  match (cfg.lookup "llm").bind (fun l => l.lookup k) with
  | some (.str s) => some s
  | _ => none

/-- The raw JSON value at `channels.<ch>.<k>` of a document. -/
def rawChannelField (fs : List (String × Json)) (ch k : String) : Option Json :=
  (lookupKey fs "channels").bind (fun c => (c.lookup ch).bind (fun t => t.lookup k))

/-- A string field of channel `ch` in a document. -/
def channelField (fs : List (String × Json)) (ch k : String) : Option String :=
  match rawChannelField fs ch k with
  | some (.str s) => some s
  | _ => none

/-! ## Concrete inputs used by witnesses and counterexamples -/

/-- A running instance of tenant u1 on port 20000. -/
def sampleInst : InstanceRec :=
  { id := "i1", userId := "u1", containerId := some "c1", dockerPort := 20000,
    status := .RUNNING, openclawVersion := "latest",
    configJson := .obj [("provider", .str "openrouter")], gatewayToken := "tok1" }

/-- A world where tenant u1 already has a non-deleted instance. -/
def sampleWorld : World :=
  { users := [("u1", "FREE")], instances := [sampleInst],
    containers := [{ running := true, ports := [20000] }] }

/-- An instance of tenant u2 on port 20001 (non-deleted). -/
def sampleInst2 : InstanceRec :=
  { sampleInst with id := "i2", userId := "u2", dockerPort := 20001 }

/-- A pre-existing on-disk document: discord already configured with
open DM and allowlist group policy, gateway bound to local, telegram
with policies set, and an unrelated section. -/
def c9Existing : List (String × Json) :=
  [("channels", .obj
     [("discord", .obj [("dmPolicy", .str "open"), ("groupPolicy", .str "allowlist")]),
      ("telegram", .obj [("dmPolicy", .str "open"), ("groupPolicy", .str "open")]),
      ("whatsapp", .obj [("enabled", .bool true)])]),
   ("gateway", .obj [("bind", .str "local")]),
   ("meta", .str "keepme")]

/-- A user delta touching only the discord credential. -/
def c9Delta : ClawConfig :=
  { channels := some { discord := some { botToken := "dtok" } } }

/-- A user delta touching both telegram and discord credentials. -/
def c9DeltaBoth : ClawConfig :=
  { channels := some { telegram := some { botToken := "ttok" },
                       discord := some { botToken := "dtok" } } }

/-- A client waiting for the challenge, with a stored auth token. -/
def c4Client : GatewayClient :=
  { initClient with connState := .WaitingForChallenge, authToken := some "tk" }

/-- A concrete connect.challenge event frame with nonce and seq. -/
def c4Challenge : Json :=
  .obj [("type", .str "event"), ("event", .str "connect.challenge"),
        ("payload", .obj [("nonce", .str "n1")]), ("seq", .num 1)]

/-- A concrete challenge-free input trace: connect API call, socket
open, a tick event, a premature sendMethod, server close. -/
def c4Trace : List ClientInput :=
  [.apiConnect "http://host:1" (some "tk") 0, .wsOpen,
   .wsMessage (.obj [("type", .str "event"), ("event", .str "tick"),
     ("seq", .num 1)]) "f1",
   .apiSendMethod "health" (.obj []) "f2",
   .wsClosed 1000 "bye"]

/-- A connected client with no handshake in flight and two outstanding
method calls. -/
def c6Idle : GatewayClient :=
  { initClient with connState := .Connected, webSocket := some 1,
                    pending := ["a", "b"] }

/-- A client torn down mid-handshake: the connect request "cid" is
outstanding and the coroutine from `sendConnectRequest` awaits it. -/
def c6Mid : GatewayClient :=
  { initClient with connState := .Authenticating, webSocket := some 1,
                    pending := ["cid"], pendingConnectId := some "cid",
                    authToken := some "tk" }

/-! ## Theorems -/

theorem lookupKey_setKey_self (fs : List (String × Json)) (k : String) (v : Json) :
    lookupKey (setKey fs k v) k = some v := by
  induction fs with
  | nil => simp [setKey, lookupKey]
  | cons hd tl ih =>
    obtain ⟨k', v'⟩ := hd
    by_cases h : k' = k
    · simp [setKey, lookupKey, h]
    · simp [setKey, lookupKey, h, ih]

theorem lookupKey_setKey_ne (fs : List (String × Json)) (k k' : String) (v : Json)
    (h : k' ≠ k) : lookupKey (setKey fs k v) k' = lookupKey fs k' := by
  have hk : ¬(k = k') := Ne.symm h
  induction fs with
  | nil => simp [setKey, lookupKey, hk]
  | cons hd tl ih =>
    obtain ⟨k₀, v₀⟩ := hd
    by_cases h₀ : k₀ = k
    · subst h₀
      simp [setKey, lookupKey, hk]
    · by_cases h₁ : k₀ = k'
      · simp [setKey, lookupKey, h₀, h₁, h]
      · simp [setKey, lookupKey, h₀, h₁, ih]

/-- C1: create is idempotent per tenant. When the tenant already has a
non-deleted Instance, the POST / handler returns that Instance unchanged
(same id) and performs nothing else: the world — instance registry,
container list, hence allocated ports and containers — is returned
untouched. -/
theorem create_idempotent_per_tenant
    (basePort maxContainers : Nat) (w : World) (userId : String)
    (opts : CreateInstanceOptions) (ids : CreateIds) (inst : InstanceRec)
    (h : w.instances.find? (fun i => i.userId == userId && !(i.status == .DELETED)) =
      some inst) :
    postInstances basePort maxContainers w userId opts ids = (w, .ok inst) := by
  unfold postInstances
  rw [h]

/-- Witness for C1 at a concrete world: u1 already owns a RUNNING
instance, so a second create returns it and changes nothing. -/
theorem create_idempotent_per_tenant_witness :
    postInstances 20000 10 sampleWorld "u1"
      { provider := some "anthropic", apiKey := some "k", model := none }
      { instanceId := "iNew", gatewayToken := "gNew", containerId := "cNew" } =
      (sampleWorld, .ok sampleInst) :=
  create_idempotent_per_tenant 20000 10 sampleWorld "u1" _ _ sampleInst (by rfl)

/-- The port scan returns the lowest satisfying value in
`[p, p + n)`, and returns none exactly when none qualifies. -/
theorem scanPorts_spec (free : Nat → Bool) :
    ∀ (n p : Nat),
      (∀ q, scanPorts free p n = some q →
        p ≤ q ∧ q < p + n ∧ free q = true ∧ ∀ r, p ≤ r → r < q → free r = false) ∧
      (scanPorts free p n = none → ∀ r, p ≤ r → r < p + n → free r = false) := by
  intro n
  induction n with
  | zero =>
    intro p
    constructor
    · intro q hq
      simp [scanPorts] at hq
    · intro _ r hr hr'
      omega
  | succ m ih =>
    intro p
    by_cases hp : free p = true
    · constructor
      · intro q hq
        simp [scanPorts, hp] at hq
        subst hq
        refine ⟨le_refl p, by omega, hp, ?_⟩
        intro r hr hr'
        omega
      · intro hnone
        simp [scanPorts, hp] at hnone
    · have hp' : free p = false := by
        cases h : free p
        · rfl
        · exact absurd h hp
      constructor
      · intro q hq
        simp [scanPorts, hp'] at hq
        obtain ⟨h1, h2, h3, h4⟩ := (ih (p + 1)).1 q hq
        refine ⟨by omega, by omega, h3, ?_⟩
        intro r hr hr'
        by_cases hr0 : r = p
        · subst hr0; exact hp'
        · exact h4 r (by omega) hr'
      · intro hnone r hr hr'
        simp [scanPorts, hp'] at hnone
        by_cases hr0 : r = p
        · subst hr0; exact hp'
        · exact (ih (p + 1)).2 hnone r (by omega) (by omega)

/-- Unfolding of "free" to the claim's terms: not bound by any container
known to the runtime, and not recorded against any non-DELETED instance. -/
theorem isFreePort_iff (cs : List DockerContainer) (insts : List InstanceRec) (p : Nat) :
    isFreePort cs insts p = true ↔
      (¬ p ∈ getUsedDockerPorts cs) ∧
      (∀ i ∈ insts, i.status ≠ .DELETED → i.dockerPort ≠ p) := by
  simp [isFreePort]

/-- C2: `getAvailablePort` returns the lowest port in
`[basePort, basePort + maxContainers)` that is neither bound by any
container the runtime knows (running or stopped) nor recorded against a
non-DELETED Instance; if no port in the range qualifies it fails with
the resource-exhausted error and returns no port. -/
theorem port_allocation_lowest_free (basePort maxContainers : Nat)
    (cs : List DockerContainer) (insts : List InstanceRec) :
    (∀ p, getAvailablePort basePort maxContainers cs insts = .ok p →
      basePort ≤ p ∧ p < basePort + maxContainers ∧
      (¬ p ∈ getUsedDockerPorts cs) ∧
      (∀ i ∈ insts, i.status ≠ .DELETED → i.dockerPort ≠ p) ∧
      (∀ q, basePort ≤ q → q < p → isFreePort cs insts q = false)) ∧
    ((∀ q, basePort ≤ q → q < basePort + maxContainers →
        isFreePort cs insts q = false) →
      getAvailablePort basePort maxContainers cs insts = .error "No available ports") := by
  constructor
  · intro p hp
    unfold getAvailablePort at hp
    cases hscan : scanPorts (isFreePort cs insts) basePort maxContainers with
    | none => rw [hscan] at hp; simp at hp
    | some q =>
      rw [hscan] at hp
      simp only [Except.ok.injEq] at hp
      subst hp
      obtain ⟨h1, h2, h3, h4⟩ :=
        (scanPorts_spec (isFreePort cs insts) maxContainers basePort).1 q hscan
      obtain ⟨hdocker, hdb⟩ := (isFreePort_iff cs insts q).1 h3
      exact ⟨h1, h2, hdocker, hdb, h4⟩
  · intro hall
    unfold getAvailablePort
    cases hscan : scanPorts (isFreePort cs insts) basePort maxContainers with
    | none => rfl
    | some q =>
      obtain ⟨h1, h2, h3, _⟩ :=
        (scanPorts_spec (isFreePort cs insts) maxContainers basePort).1 q hscan
      rw [hall q h1 h2] at h3
      cases h3

/-- Witness for C2: docker binds 20000, a non-deleted instance holds
20001, so allocation returns the lowest free port 20002. -/
theorem port_allocation_lowest_free_witness :
    20000 ≤ 20002 ∧ 20002 < 20000 + 3 ∧
    (¬ 20002 ∈ getUsedDockerPorts [{ running := false, ports := [20000] }]) ∧
    (∀ i ∈ [sampleInst2], i.status ≠ .DELETED → i.dockerPort ≠ 20002) ∧
    (∀ q, 20000 ≤ q → q < 20002 →
      isFreePort [{ running := false, ports := [20000] }] [sampleInst2] q = false) :=
  (port_allocation_lowest_free 20000 3
    [{ running := false, ports := [20000] }] [sampleInst2]).1 20002 (by rfl)

/-- C3: delete always succeeds logically. For every Instance in the
registry — with or without a container handle, and whatever the
container runtime's stop/remove calls do — `deleteInstance` returns
successfully, persists status DELETED on the matching record, touches no
other record, and the persisted outcome is independent of whether the
container calls threw (their only trace is the log). -/
theorem delete_always_persists_deleted (db : List InstanceRec) (inst : InstanceRec)
    (stopFails removeFails : Bool)
    (h : db.any (fun r => r.id == inst.id) = true) :
    ∃ db' logs, deleteInstance db inst stopFails removeFails = .ok (db', logs) ∧
      (∀ sf rf, ∃ logs', deleteInstance db inst sf rf = .ok (db', logs')) ∧
      (∀ r ∈ db', r.id = inst.id → r.status = .DELETED) ∧
      (∀ r ∈ db, r.id ≠ inst.id → r ∈ db') := by
  refine ⟨db.map (fun r => if r.id == inst.id then { r with status := .DELETED } else r),
    ?_, ?_, ?_, ?_, ?_⟩
  · exact (match inst.containerId with
      | none => []
      | some cid =>
        if stopFails then ["Failed to remove container: stop " ++ cid]
        else if removeFails then ["Failed to remove container: remove " ++ cid]
        else [])
  · simp [deleteInstance, updateInstanceStatus, h]
  · intro sf rf
    exact ⟨(match inst.containerId with
      | none => []
      | some cid =>
        if sf then ["Failed to remove container: stop " ++ cid]
        else if rf then ["Failed to remove container: remove " ++ cid]
        else []), by simp [deleteInstance, updateInstanceStatus, h]⟩
  · intro r hr hrid
    simp only [List.mem_map] at hr
    obtain ⟨r₀, _, hr₀⟩ := hr
    by_cases hc : r₀.id = inst.id
    · simp [hc] at hr₀
      rw [← hr₀]
    · simp [hc] at hr₀
      rw [← hr₀] at hrid
      exact absurd hrid hc
  · intro r hr hrid
    simp only [List.mem_map]
    refine ⟨r, hr, ?_⟩
    simp [hrid]

/-- Witness for C3: an instance with a container handle whose stop call
throws is still marked DELETED. -/
theorem delete_always_persists_deleted_witness :
    ∃ db' logs, deleteInstance [sampleInst, sampleInst2] sampleInst true false =
        .ok (db', logs) ∧
      (∀ sf rf, ∃ logs',
        deleteInstance [sampleInst, sampleInst2] sampleInst sf rf = .ok (db', logs')) ∧
      (∀ r ∈ db', r.id = sampleInst.id → r.status = .DELETED) ∧
      (∀ r ∈ [sampleInst, sampleInst2], r.id ≠ sampleInst.id → r ∈ db') :=
  delete_always_persists_deleted [sampleInst, sampleInst2] sampleInst true false (by rfl)

/-- C7: FREE-tier pooled key substitution. With subscription FREE and no
explicit model, the materialized document's single provider entry is the
pooled openrouter provider with the operator pool key as apiKey, and the
document is independent of any tenant-supplied apiKey (so the tenant key
never appears in it). -/
theorem free_tier_pooled_key (freeKey : String) (u : ClawConfig)
    (h : u.model = none ∨ u.model = some "") :
    ((generateConfig freeKey "FREE" u).lookup "models" =
      some (.obj [("providers", .obj [("openrouter",
        .obj [("apiKey", .str freeKey),
              ("baseUrl", .str "https://openrouter.ai/api/v1"),
              ("api", .str "openai-completions")])])])) ∧
    (∀ k, generateConfig freeKey "FREE" u = generateConfig freeKey "FREE"
      { u with apiKey := k }) := by
  have hm : strOr u.model "openrouter/auto" = "openrouter/auto" := by
    rcases h with h | h <;> simp [h, strOr]
  constructor
  · simp only [generateConfig, ite_true, hm]
    rfl
  · intro k
    simp only [generateConfig, ite_true]

/-- Witness for C7: a FREE user who even supplied a provider and an own
key still gets the pooled openrouter entry. -/
theorem free_tier_pooled_key_witness :
    ((generateConfig "POOLKEY" "FREE"
        { provider := some "anthropic", apiKey := some "userkey" }).lookup "models" =
      some (.obj [("providers", .obj [("openrouter",
        .obj [("apiKey", .str "POOLKEY"),
              ("baseUrl", .str "https://openrouter.ai/api/v1"),
              ("api", .str "openai-completions")])])])) ∧
    (∀ k, generateConfig "POOLKEY" "FREE"
        { provider := some "anthropic", apiKey := some "userkey" } =
      generateConfig "POOLKEY" "FREE" { provider := some "anthropic", apiKey := k }) :=
  free_tier_pooled_key "POOLKEY"
    { provider := some "anthropic", apiKey := some "userkey" } (Or.inl rfl)

/-- Counterexample to C8 as stated: the current `generateConfig` given a
PREMIUM subscription and model "anthropic/claude-x" keeps the full model
string in `agents.defaults.model.primary` — the "anthropic/" namespace
is NOT stripped there. -/
theorem provider_inference_no_strip_counterexample :
    modelPrimary (generateConfig "" "PREMIUM" { model := some "anthropic/claude-x" }) =
      some "anthropic/claude-x" ∧
    "anthropic/claude-x" ≠ "claude-x" :=
  ⟨rfl, by decide⟩

/-- C8 (amended): for a PREMIUM subscription with model
"anthropic/claude-x" and no explicit provider, the current
`generateConfig` resolves the provider to anthropic but keeps the model
field as the full "anthropic/claude-x" string; only the legacy
generator of part_004 strips the "anthropic/" namespace (its `llm.model`
is "claude-x", provider also anthropic). -/
theorem provider_inference_model_kept (freeKey : String) (u : ClawConfig)
    (hm : u.model = some "anthropic/claude-x") (hp : u.provider = none) :
    (providersOf (generateConfig freeKey "PREMIUM" u) =
      some (.obj [("anthropic",
        .obj [("apiKey", .str (strOr u.apiKey "")),
              ("api", .str "anthropic-messages")])])) ∧
    modelPrimary (generateConfig freeKey "PREMIUM" u) = some "anthropic/claude-x" ∧
    llmField (generateConfigLegacy freeKey "PREMIUM" u) "provider" = some "anthropic" ∧
    llmField (generateConfigLegacy freeKey "PREMIUM" u) "model" = some "claude-x" := by
  obtain ⟨um, ua, up, uc⟩ := u
  simp only at hm hp
  subst hm
  subst hp
  refine ⟨?_, ?_, ?_, ?_⟩
  · rfl
  · rfl
  · rfl
  · rfl

/-- Witness for the amended C8 at a concrete user configuration. -/
theorem provider_inference_model_kept_witness :
    (providersOf (generateConfig "FK" "PREMIUM"
        { model := some "anthropic/claude-x", apiKey := some "userkey" }) =
      some (.obj [("anthropic",
        .obj [("apiKey", .str (strOr (some "userkey") "")),
              ("api", .str "anthropic-messages")])])) ∧
    modelPrimary (generateConfig "FK" "PREMIUM"
        { model := some "anthropic/claude-x", apiKey := some "userkey" }) =
      some "anthropic/claude-x" ∧
    llmField (generateConfigLegacy "FK" "PREMIUM"
        { model := some "anthropic/claude-x", apiKey := some "userkey" }) "provider" =
      some "anthropic" ∧
    llmField (generateConfigLegacy "FK" "PREMIUM"
        { model := some "anthropic/claude-x", apiKey := some "userkey" }) "model" =
      some "claude-x" :=
  provider_inference_model_kept "FK"
    { model := some "anthropic/claude-x", apiKey := some "userkey" } rfl rfl

/-- Counterexample to C9 as stated: merging a delta that only carries a
discord credential into a document whose discord channel already has
dmPolicy "open" and groupPolicy "allowlist" overwrites both policies
with the hardcoded "pairing" / "disabled", and the untouched
`gateway.bind` key of the existing document is rewritten to "lan". -/
theorem merge_discord_overwrites_counterexample :
    channelField (mergeConfig c9Existing c9Delta) "discord" "dmPolicy" = some "pairing" ∧
    channelField c9Existing "discord" "dmPolicy" = some "open" ∧
    channelField (mergeConfig c9Existing c9Delta) "discord" "groupPolicy" =
      some "disabled" ∧
    channelField c9Existing "discord" "groupPolicy" = some "allowlist" ∧
    (lookupKey (mergeConfig c9Existing c9Delta) "gateway").bind
      (fun g => g.lookup "bind") = some (.str "lan") ∧
    (lookupKey c9Existing "gateway").bind (fun g => g.lookup "bind") =
      some (.str "local") ∧
    ("pairing" : String) ≠ "open" ∧ ("disabled" : String) ≠ "allowlist" ∧
    ("lan" : String) ≠ "local" :=
  ⟨rfl, rfl, rfl, rfl, rfl, rfl, by decide, by decide, by decide⟩

theorem rawChannelField_eq (fs : List (String × Json)) (ch k : String) :
    rawChannelField fs ch k =
      lookupKey (objFieldsOr (lookupKey (objFieldsOr (lookupKey fs "channels")) ch)) k := by
  unfold rawChannelField
  cases h : lookupKey fs "channels" with
  | none => simp [objFieldsOr, lookupKey]
  | some v =>
    cases v with
    | obj cfs =>
      simp only [Option.bind_some, Json.lookup, objFieldsOr]
      cases h2 : lookupKey cfs ch with
      | none => simp [h2, objFieldsOr, lookupKey]
      | some w => cases w <;> simp [h2, objFieldsOr, Json.lookup, lookupKey]
    | null => simp [objFieldsOr, Json.lookup, lookupKey]
    | bool b => simp [objFieldsOr, Json.lookup, lookupKey]
    | num n => simp [objFieldsOr, Json.lookup, lookupKey]
    | str s => simp [objFieldsOr, Json.lookup, lookupKey]
    | arr xs => simp [objFieldsOr, Json.lookup, lookupKey]

theorem lookupKey_mergeTelegram_ne (fs : List (String × Json)) (u : ClawConfig)
    (k : String) (h : k ≠ "channels") :
    lookupKey (mergeTelegram fs u) k = lookupKey fs k := by
  unfold mergeTelegram
  cases u.channels.bind (fun c => c.telegram) with
  | none => rfl
  | some tg => exact lookupKey_setKey_ne _ _ _ _ h

theorem lookupKey_mergeDiscord_ne (fs : List (String × Json)) (u : ClawConfig)
    (k : String) (h : k ≠ "channels") :
    lookupKey (mergeDiscord fs u) k = lookupKey fs k := by
  unfold mergeDiscord
  cases u.channels.bind (fun c => c.discord) with
  | none => rfl
  | some dc => exact lookupKey_setKey_ne _ _ _ _ h

theorem lookupKey_mergeGatewayBind_ne (fs : List (String × Json)) (k : String)
    (h : k ≠ "gateway") :
    lookupKey (mergeGatewayBind fs) k = lookupKey fs k :=
  lookupKey_setKey_ne _ _ _ _ h

theorem lookupKey_mergeModel_ne (fs : List (String × Json)) (u : ClawConfig)
    (k : String) (h : k ≠ "agents") :
    lookupKey (mergeModel fs u) k = lookupKey fs k := by
  unfold mergeModel
  cases u.model with
  | none => rfl
  | some m =>
    by_cases hm : m = ""
    · simp [hm]
    · simp only [hm, if_false]
      exact lookupKey_setKey_ne _ _ _ _ h

theorem channels_mergeTelegram (fs : List (String × Json)) (u : ClawConfig)
    (tg : TelegramCreds) (htg : u.channels.bind (fun c => c.telegram) = some tg) :
    lookupKey (mergeTelegram fs u) "channels" =
      some (.obj (setKey (objFieldsOr (lookupKey fs "channels")) "telegram"
        (.obj (mergedTelegramFields fs tg)))) := by
  unfold mergeTelegram
  rw [htg]
  exact lookupKey_setKey_self _ _ _

theorem raw_mergeGatewayBind (fs : List (String × Json)) (ch k : String) :
    rawChannelField (mergeGatewayBind fs) ch k = rawChannelField fs ch k := by
  unfold rawChannelField
  rw [lookupKey_mergeGatewayBind_ne _ _ (by decide)]

theorem raw_mergeModel (fs : List (String × Json)) (u : ClawConfig) (ch k : String) :
    rawChannelField (mergeModel fs u) ch k = rawChannelField fs ch k := by
  unfold rawChannelField
  rw [lookupKey_mergeModel_ne _ _ _ (by decide)]

theorem raw_mergeTelegram_other (fs : List (String × Json)) (u : ClawConfig)
    (ch k : String) (h : ch ≠ "telegram") :
    rawChannelField (mergeTelegram fs u) ch k = rawChannelField fs ch k := by
  unfold mergeTelegram
  cases htg : u.channels.bind (fun c => c.telegram) with
  | none => rfl
  | some tg =>
    rw [rawChannelField_eq, rawChannelField_eq, lookupKey_setKey_self]
    simp only [objFieldsOr]
    rw [lookupKey_setKey_ne _ _ _ _ h]

theorem raw_mergeDiscord_other (fs : List (String × Json)) (u : ClawConfig)
    (ch k : String) (h : ch ≠ "discord") :
    rawChannelField (mergeDiscord fs u) ch k = rawChannelField fs ch k := by
  unfold mergeDiscord
  cases hdc : u.channels.bind (fun c => c.discord) with
  | none => rfl
  | some dc =>
    rw [rawChannelField_eq, rawChannelField_eq, lookupKey_setKey_self]
    simp only [objFieldsOr]
    rw [lookupKey_setKey_ne _ _ _ _ h]

theorem raw_telegram_merged (fs : List (String × Json)) (u : ClawConfig)
    (tg : TelegramCreds) (htg : u.channels.bind (fun c => c.telegram) = some tg)
    (k : String) :
    rawChannelField (mergeConfig fs u) "telegram" k =
      lookupKey (mergedTelegramFields fs tg) k := by
  have hch2 : lookupKey (mergeGatewayBind (mergeTelegram fs u)) "channels" =
      some (.obj (setKey (objFieldsOr (lookupKey fs "channels")) "telegram"
        (.obj (mergedTelegramFields fs tg)))) := by
    rw [lookupKey_mergeGatewayBind_ne _ _ (by decide)]
    exact channels_mergeTelegram fs u tg htg
  have hch3 : ∃ C, lookupKey (mergeDiscord (mergeGatewayBind (mergeTelegram fs u)) u)
      "channels" = some (.obj C) ∧
      lookupKey C "telegram" = some (.obj (mergedTelegramFields fs tg)) := by
    unfold mergeDiscord
    cases hdc : u.channels.bind (fun c => c.discord) with
    | none =>
      exact ⟨_, hch2, lookupKey_setKey_self _ _ _⟩
    | some dc =>
      refine ⟨_, lookupKey_setKey_self _ _ _, ?_⟩
      rw [hch2]
      simp only [objFieldsOr]
      rw [lookupKey_setKey_ne _ _ _ _ (by decide)]
      exact lookupKey_setKey_self _ _ _
  obtain ⟨C, hC, hCt⟩ := hch3
  have hch4 : lookupKey (mergeConfig fs u) "channels" = some (.obj C) := by
    unfold mergeConfig
    rw [lookupKey_mergeModel_ne _ _ _ (by decide)]
    exact hC
  rw [rawChannelField_eq, hch4]
  simp only [objFieldsOr]
  rw [hCt]

theorem raw_discord_merged (fs : List (String × Json)) (u : ClawConfig)
    (dc : DiscordCreds) (hdc : u.channels.bind (fun c => c.discord) = some dc)
    (k : String) :
    rawChannelField (mergeConfig fs u) "discord" k =
      lookupKey (mergedDiscordFields (mergeGatewayBind (mergeTelegram fs u)) dc) k := by
  have hch3 : lookupKey (mergeDiscord (mergeGatewayBind (mergeTelegram fs u)) u)
      "channels" = some (.obj (setKey
        (objFieldsOr (lookupKey (mergeGatewayBind (mergeTelegram fs u)) "channels"))
        "discord" (.obj (mergedDiscordFields (mergeGatewayBind (mergeTelegram fs u)) dc)))) := by
    unfold mergeDiscord
    rw [hdc]
    exact lookupKey_setKey_self _ _ _
  have hch4 : lookupKey (mergeConfig fs u) "channels" = some (.obj (setKey
      (objFieldsOr (lookupKey (mergeGatewayBind (mergeTelegram fs u)) "channels"))
      "discord" (.obj (mergedDiscordFields (mergeGatewayBind (mergeTelegram fs u)) dc)))) := by
    unfold mergeConfig
    rw [lookupKey_mergeModel_ne _ _ _ (by decide)]
    exact hch3
  rw [rawChannelField_eq, hch4]
  simp only [objFieldsOr]
  rw [lookupKey_setKey_self]

theorem mergedTelegramFields_policies (fs : List (String × Json)) (tg : TelegramCreds) :
    lookupKey (mergedTelegramFields fs tg) "dmPolicy" =
      some (jsOr (rawChannelField fs "telegram" "dmPolicy") (.str "pairing")) ∧
    lookupKey (mergedTelegramFields fs tg) "groupPolicy" =
      some (jsOr (rawChannelField fs "telegram" "groupPolicy") (.str "allowlist")) := by
  constructor
  · simp only [mergedTelegramFields]
    rw [lookupKey_setKey_ne _ _ _ _ (by decide), lookupKey_setKey_self,
      rawChannelField_eq]
  · simp only [mergedTelegramFields]
    rw [lookupKey_setKey_self, rawChannelField_eq]

theorem mergedDiscordFields_policies (fs : List (String × Json)) (dc : DiscordCreds) :
    lookupKey (mergedDiscordFields fs dc) "dmPolicy" = some (.str "pairing") ∧
    lookupKey (mergedDiscordFields fs dc) "groupPolicy" = some (.str "disabled") := by
  constructor
  · simp only [mergedDiscordFields]
    rw [lookupKey_setKey_ne _ _ _ _ (by decide), lookupKey_setKey_self]
  · simp only [mergedDiscordFields]
    rw [lookupKey_setKey_self]

/-- C9 (amended): the merge performed by `updateInstanceConfig` is
non-destructive with two exceptions the code hardcodes. For every
existing document and delta: (a) when the delta carries telegram
credentials, telegram's pre-existing (present, truthy-string) dmPolicy
and groupPolicy are preserved and only default to pairing / allowlist
when absent; (b) when the delta carries discord credentials, discord's
dmPolicy and groupPolicy are unconditionally set to pairing / disabled,
overwriting any pre-existing values; (c) every top-level key other than
channels, gateway and agents is retained; (d) gateway.bind is always
forced to "lan"; (e) channels the merge does not touch are retained;
(f) agents is retained when the delta carries no model. -/
theorem merge_nondestructive (fs : List (String × Json)) (u : ClawConfig) :
    (∀ tg, u.channels.bind (fun c => c.telegram) = some tg →
      (∀ s, rawChannelField fs "telegram" "dmPolicy" = some (.str s) → s ≠ "" →
        rawChannelField (mergeConfig fs u) "telegram" "dmPolicy" = some (.str s)) ∧
      (rawChannelField fs "telegram" "dmPolicy" = none →
        rawChannelField (mergeConfig fs u) "telegram" "dmPolicy" =
          some (.str "pairing")) ∧
      (∀ s, rawChannelField fs "telegram" "groupPolicy" = some (.str s) → s ≠ "" →
        rawChannelField (mergeConfig fs u) "telegram" "groupPolicy" = some (.str s)) ∧
      (rawChannelField fs "telegram" "groupPolicy" = none →
        rawChannelField (mergeConfig fs u) "telegram" "groupPolicy" =
          some (.str "allowlist"))) ∧
    (∀ dc, u.channels.bind (fun c => c.discord) = some dc →
      rawChannelField (mergeConfig fs u) "discord" "dmPolicy" =
        some (.str "pairing") ∧
      rawChannelField (mergeConfig fs u) "discord" "groupPolicy" =
        some (.str "disabled")) ∧
    (∀ k, k ≠ "channels" → k ≠ "gateway" → k ≠ "agents" →
      lookupKey (mergeConfig fs u) k = lookupKey fs k) ∧
    ((lookupKey (mergeConfig fs u) "gateway").bind (fun g => g.lookup "bind") =
      some (.str "lan")) ∧
    (∀ ch, ch ≠ "telegram" → ch ≠ "discord" → ∀ k,
      rawChannelField (mergeConfig fs u) ch k = rawChannelField fs ch k) ∧
    (u.model = none → lookupKey (mergeConfig fs u) "agents" = lookupKey fs "agents") := by
  refine ⟨?_, ?_, ?_, ?_, ?_, ?_⟩
  · intro tg htg
    have hdm := raw_telegram_merged fs u tg htg "dmPolicy"
    have hgp := raw_telegram_merged fs u tg htg "groupPolicy"
    obtain ⟨hdmf, hgpf⟩ := mergedTelegramFields_policies fs tg
    refine ⟨?_, ?_, ?_, ?_⟩
    · intro s hs hne
      rw [hdm, hdmf, hs]
      simp [jsOr, jTruthy, hne]
    · intro hnone
      rw [hdm, hdmf, hnone]
      rfl
    · intro s hs hne
      rw [hgp, hgpf, hs]
      simp [jsOr, jTruthy, hne]
    · intro hnone
      rw [hgp, hgpf, hnone]
      rfl
  · intro dc hdc
    have hdm := raw_discord_merged fs u dc hdc "dmPolicy"
    have hgp := raw_discord_merged fs u dc hdc "groupPolicy"
    obtain ⟨hdmf, hgpf⟩ :=
      mergedDiscordFields_policies (mergeGatewayBind (mergeTelegram fs u)) dc
    exact ⟨by rw [hdm, hdmf], by rw [hgp, hgpf]⟩
  · intro k h1 h2 h3
    unfold mergeConfig
    rw [lookupKey_mergeModel_ne _ _ _ h3, lookupKey_mergeDiscord_ne _ _ _ h1,
      lookupKey_mergeGatewayBind_ne _ _ h2, lookupKey_mergeTelegram_ne _ _ _ h1]
  · have h1 : lookupKey (mergeConfig fs u) "gateway" =
        some (.obj (setKey (objFieldsOr (lookupKey (mergeTelegram fs u) "gateway"))
          "bind" (.str "lan"))) := by
      unfold mergeConfig
      rw [lookupKey_mergeModel_ne _ _ _ (by decide),
        lookupKey_mergeDiscord_ne _ _ _ (by decide)]
      exact lookupKey_setKey_self _ _ _
    rw [h1]
    simp only [Option.bind_some, Json.lookup]
    exact lookupKey_setKey_self _ _ _
  · intro ch h1 h2 k
    unfold mergeConfig
    rw [raw_mergeModel, raw_mergeDiscord_other _ _ _ _ h2, raw_mergeGatewayBind,
      raw_mergeTelegram_other _ _ _ _ h1]
  · intro hmodel
    unfold mergeConfig mergeModel
    rw [hmodel]
    rw [lookupKey_mergeDiscord_ne _ _ _ (by decide),
      lookupKey_mergeGatewayBind_ne _ _ (by decide),
      lookupKey_mergeTelegram_ne _ _ _ (by decide)]

/-- Witness for the amended C9 at the concrete document `c9Existing` and
a delta touching telegram and discord: telegram's pre-existing "open"
policies survive, discord's are overwritten to pairing/disabled, the
unrelated top-level key and the whatsapp channel are retained, and
gateway.bind becomes "lan". -/
theorem merge_nondestructive_witness :
    rawChannelField (mergeConfig c9Existing c9DeltaBoth) "telegram" "dmPolicy" =
      some (.str "open") ∧
    rawChannelField (mergeConfig c9Existing c9DeltaBoth) "telegram" "groupPolicy" =
      some (.str "open") ∧
    rawChannelField (mergeConfig c9Existing c9DeltaBoth) "discord" "dmPolicy" =
      some (.str "pairing") ∧
    rawChannelField (mergeConfig c9Existing c9DeltaBoth) "discord" "groupPolicy" =
      some (.str "disabled") ∧
    lookupKey (mergeConfig c9Existing c9DeltaBoth) "meta" = lookupKey c9Existing "meta" ∧
    (lookupKey (mergeConfig c9Existing c9DeltaBoth) "gateway").bind
      (fun g => g.lookup "bind") = some (.str "lan") ∧
    rawChannelField (mergeConfig c9Existing c9DeltaBoth) "whatsapp" "enabled" =
      rawChannelField c9Existing "whatsapp" "enabled" ∧
    lookupKey (mergeConfig c9Existing c9DeltaBoth) "agents" =
      lookupKey c9Existing "agents" := by
  obtain ⟨ha, hb, hc, hd, he, hf⟩ := merge_nondestructive c9Existing c9DeltaBoth
  obtain ⟨ha1, _, ha3, _⟩ := ha { botToken := "ttok" } rfl
  obtain ⟨hb1, hb2⟩ := hb { botToken := "dtok" } rfl
  exact ⟨ha1 "open" rfl (by decide), ha3 "open" rfl (by decide), hb1, hb2,
    hc "meta" (by decide) (by decide) (by decide), hd,
    he "whatsapp" (by decide) (by decide) "enabled", hf rfl⟩

/-- C10 (implicit): calling connect() while the connection state is
Connecting, WaitingForChallenge, Authenticating or Connected returns
immediately as a no-op: no socket is opened (no action at all), and the
client state — connection state, stored auth token, pending-request
table — is returned unchanged; the new url and token are ignored. -/
theorem connect_noop_while_active (c : GatewayClient) (url : String)
    (token : Option String) (handle : Nat)
    (h : c.connState = .Connecting ∨ c.connState = .WaitingForChallenge ∨
         c.connState = .Authenticating ∨ c.connState = .Connected) :
    c.connect url token handle = (c, []) := by
  have hb : c.connState.isBusy = true := by
    rcases h with h | h | h | h <;> rw [h] <;> rfl
  unfold GatewayClient.connect
  rw [hb]
  simp

/-- Witness for C10: a Connected client ignores a new connect call with
a different url and token. -/
theorem connect_noop_while_active_witness :
    GatewayClient.connect { initClient with connState := .Connected }
      "http://other:1" (some "newtok") 7 =
      ({ initClient with connState := .Connected }, []) :=
  connect_noop_while_active { initClient with connState := .Connected }
    "http://other:1" (some "newtok") 7 (Or.inr (Or.inr (Or.inr rfl)))

theorem teardownState_isConnected (c : GatewayClient) (base : ConnState)
    (m : String) (hb : base.isConnected = false) :
    (teardownState c base m).isConnected = false := by
  unfold teardownState
  cases c.pendingConnectId with
  | none => exact hb
  | some id => rfl

/-- Counterexample to C6 as stated: a teardown arriving while the
connect handshake is in flight does not leave the state Disconnected
(server close, explicit disconnect) or Error(fail-message) (socket
failure): failing the outstanding connect awaiter resumes the handshake
coroutine, whose catch leaves Error("Handshake failed: ...") carrying
the teardown cause in all three cases. -/
theorem teardown_midhandshake_counterexample :
    (c6Mid.onClosed 1000 "bye").1.connState =
      .Error "Handshake failed: Connection closed: 1000 bye" ∧
    (c6Mid.onClosed 1000 "bye").1.connState ≠ .Disconnected ∧
    c6Mid.disconnect.1.connState = .Error "Handshake failed: Disconnected" ∧
    c6Mid.disconnect.1.connState ≠ .Disconnected ∧
    (c6Mid.onFailure (some "reset")).1.connState = .Error "Handshake failed: reset" ∧
    (c6Mid.onFailure (some "reset")).1.connState ≠ .Error "reset" := by
  decide

/-- C6 (amended): connection teardown atomicity. Every teardown —
socket failure, server-initiated close, explicit disconnect() — fails
every outstanding awaiter with a connection-closed/failure error,
leaves the pending-request table empty, and performs no socket open
(the client never initiates a reconnect). The resulting state: with no
connect handshake in flight, Error(message ?: "Connection failed") for
a socket failure and Disconnected for a server close or an explicit
disconnect; with a connect awaiter outstanding, failing it resumes the
handshake coroutine, whose catch leaves
Error("Handshake failed: <teardown cause>") in all three cases. -/
theorem teardown_atomicity_amended (c : GatewayClient) (msg : Option String)
    (code : Int) (reason : String) :
    ((c.onFailure msg).1.pending = [] ∧
     (c.onFailure msg).1.pendingConnectId = none ∧
     (c.pendingConnectId = none →
       (c.onFailure msg).1.connState = .Error (msg.getD "Connection failed")) ∧
     (∀ id, c.pendingConnectId = some id →
       (c.onFailure msg).1.connState =
         .Error ("Handshake failed: " ++ msg.getD "null")) ∧
     (c.onFailure msg).2 = c.pending.map (fun id =>
        ClientAct.failAwaiter id (msg.getD "Connection failed")) ∧
     (∀ a ∈ (c.onFailure msg).2, isOpenSocket a = false)) ∧
    ((c.onClosed code reason).1.pending = [] ∧
     (c.onClosed code reason).1.pendingConnectId = none ∧
     (c.pendingConnectId = none →
       (c.onClosed code reason).1.connState = .Disconnected) ∧
     (∀ id, c.pendingConnectId = some id →
       (c.onClosed code reason).1.connState =
         .Error ("Handshake failed: " ++
           ("Connection closed: " ++ toString code ++ " " ++ reason))) ∧
     (c.onClosed code reason).2 = c.pending.map (fun id =>
        ClientAct.failAwaiter id
          ("Connection closed: " ++ toString code ++ " " ++ reason)) ∧
     (∀ a ∈ (c.onClosed code reason).2, isOpenSocket a = false)) ∧
    (c.disconnect.1.pending = [] ∧
     c.disconnect.1.pendingConnectId = none ∧
     (c.pendingConnectId = none → c.disconnect.1.connState = .Disconnected) ∧
     (∀ id, c.pendingConnectId = some id →
       c.disconnect.1.connState = .Error "Handshake failed: Disconnected") ∧
     (∀ id ∈ c.pending, ClientAct.failAwaiter id "Disconnected" ∈ c.disconnect.2) ∧
     (∀ a ∈ c.disconnect.2, isOpenSocket a = false)) := by
  refine ⟨⟨rfl, rfl, ?_, ?_, rfl, ?_⟩, ⟨rfl, rfl, ?_, ?_, rfl, ?_⟩,
    ⟨rfl, rfl, ?_, ?_, ?_, ?_⟩⟩
  · intro h
    simp [GatewayClient.onFailure, teardownState, h]
  · intro id h
    simp [GatewayClient.onFailure, teardownState, h]
  · intro a ha
    simp only [GatewayClient.onFailure, List.mem_map] at ha
    obtain ⟨id, _, hid⟩ := ha
    rw [← hid]
    rfl
  · intro h
    simp [GatewayClient.onClosed, teardownState, h]
  · intro id h
    simp [GatewayClient.onClosed, teardownState, h]
  · intro a ha
    simp only [GatewayClient.onClosed, List.mem_map] at ha
    obtain ⟨id, _, hid⟩ := ha
    rw [← hid]
    rfl
  · intro h
    simp [GatewayClient.disconnect, teardownState, h]
  · intro id h
    simp [GatewayClient.disconnect, teardownState, h]
  · intro id hid
    simp only [GatewayClient.disconnect, List.mem_append, List.mem_map]
    exact Or.inr ⟨id, hid, rfl⟩
  · intro a ha
    simp only [GatewayClient.disconnect, List.mem_append, List.mem_map] at ha
    rcases ha with ha | ⟨id, _, hid⟩
    · cases hw : c.webSocket with
      | none => rw [hw] at ha; simp at ha
      | some s =>
        rw [hw] at ha
        simp at ha
        rw [ha]
        rfl
    · rw [← hid]
      rfl

/-- Witness for the amended C6: the idle client ends Disconnected /
Error("Connection failed") with both awaiters failed; the mid-handshake
client ends in the handshake-failed Error for all three teardowns. -/
theorem teardown_atomicity_amended_witness :
    (c6Idle.onClosed 1000 "bye").1.connState = .Disconnected ∧
    (c6Idle.onFailure none).1.connState = .Error "Connection failed" ∧
    c6Idle.disconnect.1.connState = .Disconnected ∧
    (c6Idle.onFailure none).2 = [ClientAct.failAwaiter "a" "Connection failed",
      ClientAct.failAwaiter "b" "Connection failed"] ∧
    (c6Mid.onClosed 1000 "bye").1.connState =
      .Error "Handshake failed: Connection closed: 1000 bye" ∧
    (c6Mid.onFailure (some "reset")).1.connState =
      .Error "Handshake failed: reset" ∧
    c6Mid.disconnect.1.connState = .Error "Handshake failed: Disconnected" ∧
    c6Mid.disconnect.1.pending = [] := by
  obtain ⟨⟨_, _, fIdle, _, factsIdle, _⟩, ⟨_, _, clIdle, _, _, _⟩,
    ⟨_, _, dIdle, _, _, _⟩⟩ :=
    teardown_atomicity_amended c6Idle none 1000 "bye"
  obtain ⟨⟨_, _, _, fMid, _, _⟩, ⟨_, _, _, clMid, _, _⟩, ⟨dp, _, _, dMid, _, _⟩⟩ :=
    teardown_atomicity_amended c6Mid (some "reset") 1000 "bye"
  refine ⟨clIdle rfl, fIdle rfl, dIdle rfl, factsIdle, ?_, fMid "cid" rfl,
    dMid "cid" rfl, dp⟩
  rw [clMid "cid" rfl]
  decide

/-- Event dispatch itself emits no sequence-gap notification and leaves
`lastSeq` alone (gap emission happens only in the seq-tracking block). -/
theorem dispatchEvent_no_gap (c : GatewayClient) (en : String) (p : Option Json)
    (fid : String) :
    (c.dispatchEvent en p fid).2.filter isGapEmit = [] ∧
    (c.dispatchEvent en p fid).1.lastSeq = c.lastSeq := by
  unfold GatewayClient.dispatchEvent
  split_ifs with h1 h2 h3 h4 h5
  · cases p <;> simp [GatewayClient.sendConnectRequest, isGapEmit]
  · simp [isGapEmit]
  · simp [isGapEmit]
  · simp [isGapEmit]
  · simp [isGapEmit]
  · simp [isGapEmit]

/-- C5: event-sequence gap detection. For an event frame carrying an
integer `seq`, when `lastSeq = N` and `seq > N + 1` the handler emits
exactly one gap notification reporting expected `N + 1` and received
`seq`; and whenever `seq` is present, `lastSeq` is set to `seq`. -/
theorem event_gap_detection :
    (∀ (c : GatewayClient) (json : Json) (fid : String) (N s : Int),
      c.lastSeq = some N →
      json.optStringD "type" "" = "event" →
      json.lookup "seq" = some (.num s) →
      s > N + 1 →
      ((c.handleMessage json fid).2.filter isGapEmit =
        [ClientAct.emit (.seqGap (N + 1) s)] ∧
       (c.handleMessage json fid).1.lastSeq = some s)) ∧
    (∀ (c : GatewayClient) (json : Json) (fid : String) (s : Int),
      json.optStringD "type" "" = "event" →
      json.lookup "seq" = some (.num s) →
      (c.handleMessage json fid).1.lastSeq = some s) := by
  have hmain : ∀ (c : GatewayClient) (json : Json) (fid : String) (s : Int),
      json.optStringD "type" "" = "event" →
      json.lookup "seq" = some (.num s) →
      (c.handleMessage json fid).1.lastSeq = some s ∧
      (c.handleMessage json fid).2.filter isGapEmit =
        (match c.lastSeq with
         | some prev => if s > prev + 1 then [ClientAct.emit (.seqGap (prev + 1) s)]
                        else []
         | none => []) := by
    intro c json fid s htype hseq
    unfold GatewayClient.handleMessage
    rw [htype]
    simp only [if_pos rfl]
    unfold GatewayClient.handleEvent
    have hhas : json.hasKey "seq" = true := by
      simp [Json.hasKey, hseq]
    rw [hhas, hseq]
    simp only [if_pos rfl]
    obtain ⟨hfilter, hlast⟩ := dispatchEvent_no_gap { c with lastSeq := some s }
      (json.optStringD "event" "") (json.optJSONObject "payload") fid
    cases hd : ({ c with lastSeq := some s } : GatewayClient).dispatchEvent
        (json.optStringD "event" "") (json.optJSONObject "payload") fid with
    | mk c2 acts =>
      rw [hd] at hfilter hlast
      simp only at hfilter hlast
      constructor
      · simpa using hlast
      · simp only [List.filter_append, hfilter, List.append_nil]
        cases c.lastSeq with
        | none => simp [hfilter]
        | some prev =>
          by_cases hgt : s > prev + 1
          · simp [hgt, isGapEmit, hfilter]
          · simp [hgt, hfilter]
  constructor
  · intro c json fid N s hN htype hseq hgt
    obtain ⟨h1, h2⟩ := hmain c json fid s htype hseq
    rw [hN] at h2
    simp only [hgt, if_pos] at h2
    exact ⟨by simpa [hgt] using h2, h1⟩
  · intro c json fid s htype hseq
    exact (hmain c json fid s htype hseq).1

/-- Witness for C5: after lastSeq = 3, a tick event with seq 8 (= 3 + 5)
yields exactly one gap notification (expected 4, received 8) and
lastSeq becomes 8. -/
theorem event_gap_detection_witness :
    ((({ initClient with lastSeq := some 3 } : GatewayClient).handleMessage
        (.obj [("type", .str "event"), ("event", .str "tick"), ("seq", .num 8)])
        "fid").2.filter isGapEmit = [ClientAct.emit (.seqGap 4 8)] ∧
      (({ initClient with lastSeq := some 3 } : GatewayClient).handleMessage
        (.obj [("type", .str "event"), ("event", .str "tick"), ("seq", .num 8)])
        "fid").1.lastSeq = some 8) :=
  event_gap_detection.1 { initClient with lastSeq := some 3 }
    (.obj [("type", .str "event"), ("event", .str "tick"), ("seq", .num 8)])
    "fid" 3 8 rfl rfl rfl (by norm_num)

theorem dispatch_challenge (c : GatewayClient) (p : Json) (fid : String) :
    c.dispatchEvent "connect.challenge" (some p) fid =
      ({ c with connState := .Authenticating, pending := c.pending ++ [fid],
                pendingConnectId := some fid },
       [.sendFrame (reqFrame fid "connect" (connectParams c.authToken))]) := by
  unfold GatewayClient.dispatchEvent GatewayClient.sendConnectRequest
  simp

theorem dispatch_safe (c : GatewayClient) (en : String) (p : Option Json) (fid : String)
    (h : en ≠ "connect.challenge") :
    (c.dispatchEvent en p fid).1.pendingConnectId = c.pendingConnectId ∧
    (c.dispatchEvent en p fid).1.connState = c.connState ∧
    ∀ a ∈ (c.dispatchEvent en p fid).2, isConnectSend a = false := by
  unfold GatewayClient.dispatchEvent
  rw [if_neg h]
  split_ifs <;> refine ⟨rfl, rfl, ?_⟩ <;> simp [isConnectSend]

theorem handleEvent_safe (c : GatewayClient) (j : Json) (fid : String)
    (h : j.optStringD "event" "" ≠ "connect.challenge") :
    (c.handleEvent j fid).1.pendingConnectId = c.pendingConnectId ∧
    (c.handleEvent j fid).1.connState = c.connState ∧
    ∀ a ∈ (c.handleEvent j fid).2, isConnectSend a = false := by
  unfold GatewayClient.handleEvent
  cases hk : j.lookup "seq" with
  | none =>
    have hhas : j.hasKey "seq" = false := by simp [Json.hasKey, hk]
    rw [hhas]
    simp only [Bool.false_eq_true, if_false]
    exact dispatch_safe c _ _ fid h
  | some v =>
    have hhas : j.hasKey "seq" = true := by simp [Json.hasKey, hk]
    rw [hhas]
    simp only [if_pos rfl]
    cases v with
    | num n =>
      obtain ⟨d1, d2, d3⟩ := dispatch_safe { c with lastSeq := some n }
        (j.optStringD "event" "") (j.optJSONObject "payload") fid h
      refine ⟨d1, d2, ?_⟩
      show ∀ a ∈ (match c.lastSeq with
          | some prev => if n > prev + 1 then
              [ClientAct.emit (GEvent.seqGap (prev + 1) n)] else []
          | none => []) ++ (({ c with lastSeq := some n } : GatewayClient).dispatchEvent
            (j.optStringD "event" "") (j.optJSONObject "payload") fid).2,
        isConnectSend a = false
      intro a ha
      rcases List.mem_append.mp ha with ha | ha
      · cases hls : c.lastSeq with
        | none => rw [hls] at ha; simp at ha
        | some prev =>
          rw [hls] at ha
          by_cases hgt : n > prev + 1
          · simp [hgt] at ha
            rw [ha]
            rfl
          · simp [hgt] at ha
      · exact d3 a ha
    | null => exact ⟨rfl, rfl, by simp⟩
    | bool b => exact ⟨rfl, rfl, by simp⟩
    | str s => exact ⟨rfl, rfl, by simp⟩
    | arr xs => exact ⟨rfl, rfl, by simp⟩
    | obj fs => exact ⟨rfl, rfl, by simp⟩

theorem handleResponse_safe (c : GatewayClient) (j : Json)
    (hc : c.pendingConnectId = none) :
    (c.handleResponse j).1.pendingConnectId = none ∧
    (c.handleResponse j).1.connState = c.connState ∧
    ∀ a ∈ (c.handleResponse j).2, isConnectSend a = false := by
  unfold GatewayClient.handleResponse
  by_cases h1 : j.optStringD "id" "" = ""
  · rw [if_pos h1]
    exact ⟨hc, rfl, by simp⟩
  · rw [if_neg h1]
    by_cases h2 : c.pending.contains (j.optStringD "id" "") = true
    · rw [if_pos h2]
      dsimp only
      rw [hc]
      by_cases h3 : j.optBool "ok" = true
      · rw [if_pos h3,
          if_neg (by simp : ¬(none : Option String) = some (j.optStringD "id" ""))]
        exact ⟨rfl, rfl, by simp [isConnectSend]⟩
      · rw [if_neg h3,
          if_neg (by simp : ¬(none : Option String) = some (j.optStringD "id" ""))]
        exact ⟨rfl, rfl, by simp [isConnectSend]⟩
    · rw [if_neg h2]
      exact ⟨hc, rfl, by simp⟩

theorem stepClient_safe (c : GatewayClient) (i : ClientInput)
    (hc : c.pendingConnectId = none) (hs : c.connState.isConnected = false)
    (hi : isChallengeInput i = false) :
    (stepClient c i).1.pendingConnectId = none ∧
    (stepClient c i).1.connState.isConnected = false ∧
    ∀ a ∈ (stepClient c i).2, isConnectSend a = false := by
  cases i with
  | wsOpen => exact ⟨hc, rfl, by simp [stepClient, GatewayClient.onOpen]⟩
  | wsFailure msg =>
    refine ⟨rfl, teardownState_isConnected c _ _ rfl, ?_⟩
    intro a ha
    simp only [stepClient, GatewayClient.onFailure, List.mem_map] at ha
    obtain ⟨id, _, hid⟩ := ha
    rw [← hid]
    rfl
  | wsClosed code reason =>
    refine ⟨rfl, teardownState_isConnected c _ _ rfl, ?_⟩
    intro a ha
    simp only [stepClient, GatewayClient.onClosed, List.mem_map] at ha
    obtain ⟨id, _, hid⟩ := ha
    rw [← hid]
    rfl
  | apiDisconnect =>
    refine ⟨rfl, teardownState_isConnected c _ _ rfl, ?_⟩
    intro a ha
    simp only [stepClient, GatewayClient.disconnect, List.mem_append,
      List.mem_map] at ha
    rcases ha with ha | ⟨id, _, hid⟩
    · cases hw : c.webSocket with
      | none => rw [hw] at ha; simp at ha
      | some s => rw [hw] at ha; simp at ha; rw [ha]; rfl
    · rw [← hid]
      rfl
  | apiConnect url token handle =>
    simp only [stepClient]
    unfold GatewayClient.connect
    by_cases hb : c.connState.isBusy = true
    · rw [if_pos hb]
      exact ⟨hc, hs, by simp⟩
    · rw [if_neg hb]
      exact ⟨hc, rfl, by simp [isConnectSend]⟩
  | apiSendMethod m p fid =>
    simp only [stepClient]
    unfold GatewayClient.sendMethod
    cases hw : c.webSocket with
    | none => exact ⟨hc, hs, by simp⟩
    | some s =>
      rw [hs]
      simp only [Bool.false_eq_true, if_false]
      exact ⟨hc, hs, by simp⟩
  | wsMessage j fid =>
    simp only [stepClient]
    unfold GatewayClient.handleMessage
    by_cases ht : j.optStringD "type" "" = "event"
    · have hev : j.optStringD "event" "" ≠ "connect.challenge" := by
        simp only [isChallengeInput, Bool.and_eq_false_iff] at hi
        rcases hi with hi | hi
        · rw [ht] at hi; simp at hi
        · intro hh; rw [hh] at hi; simp at hi
      obtain ⟨e1, e2, e3⟩ := handleEvent_safe c j fid hev
      rw [if_pos ht]
      exact ⟨e1.trans hc, by rw [e2, hs], e3⟩
    · rw [if_neg ht]
      by_cases hr : j.optStringD "type" "" = "res"
      · rw [if_pos hr]
        obtain ⟨r1, r2, r3⟩ := handleResponse_safe c j hc
        exact ⟨r1, by rw [r2, hs], r3⟩
      · rw [if_neg hr]
        exact ⟨hc, hs, by simp [isConnectSend]⟩

theorem runClient_safe (inputs : List ClientInput) :
    ∀ c : GatewayClient, c.pendingConnectId = none →
      c.connState.isConnected = false →
      (∀ i ∈ inputs, isChallengeInput i = false) →
      ((runClient c inputs).1.pendingConnectId = none ∧
       (runClient c inputs).1.connState.isConnected = false ∧
       ∀ a ∈ (runClient c inputs).2, isConnectSend a = false) := by
  induction inputs with
  | nil =>
    intro c h1 h2 _
    exact ⟨h1, h2, by simp [runClient]⟩
  | cons i rest ih =>
    intro c h1 h2 hch
    obtain ⟨s1, s2, s3⟩ := stepClient_safe c i h1 h2 (hch i (by simp))
    obtain ⟨r1, r2, r3⟩ := ih (stepClient c i).1 s1 s2
      (fun j hj => hch j (by simp [hj]))
    refine ⟨r1, r2, ?_⟩
    intro a ha
    have ha' : a ∈ (stepClient c i).2 ++ (runClient (stepClient c i).1 rest).2 := ha
    rcases List.mem_append.mp ha' with hm | hm
    · exact s3 a hm
    · exact r3 a hm

theorem handleMessage_challenge (c : GatewayClient) (json : Json) (fid : String)
    (p : Json)
    (htype : json.optStringD "type" "" = "event")
    (hev : json.optStringD "event" "" = "connect.challenge")
    (hp : json.optJSONObject "payload" = some p)
    (hseq : json.lookup "seq" = none ∨ ∃ n : Int, json.lookup "seq" = some (.num n)) :
    (c.handleMessage json fid).1.connState = .Authenticating ∧
    (c.handleMessage json fid).2.filter isSendFrame =
      [ClientAct.sendFrame (reqFrame fid "connect" (connectParams c.authToken))] := by
  unfold GatewayClient.handleMessage
  rw [if_pos htype]
  unfold GatewayClient.handleEvent
  rcases hseq with hnone | ⟨n, hn⟩
  · have hhas : json.hasKey "seq" = false := by simp [Json.hasKey, hnone]
    rw [hhas]
    simp only [Bool.false_eq_true, if_false]
    rw [hev, hp, dispatch_challenge]
    exact ⟨rfl, by simp [isSendFrame]⟩
  · have hhas : json.hasKey "seq" = true := by simp [Json.hasKey, hn]
    rw [if_pos hhas, hn]
    dsimp only
    rw [hev, hp, dispatch_challenge]
    refine ⟨rfl, ?_⟩
    dsimp only
    rw [List.filter_append]
    have hgaps : (match c.lastSeq with
        | some prev => if n > prev + 1 then
            [ClientAct.emit (GEvent.seqGap (prev + 1) n)] else []
        | none => ([] : List ClientAct)).filter isSendFrame = [] := by
      cases c.lastSeq with
      | none => rfl
      | some prev =>
        by_cases hgt : n > prev + 1
        · simp [hgt, isSendFrame]
        · simp [hgt]
    rw [hgaps]
    simp [isSendFrame]

/-- C4: challenge-gated handshake. (1) On socket open the client only
enters WaitingForChallenge and sends nothing. (2) On a connect.challenge
event with a payload it transitions to Authenticating and sends exactly
one frame, the connect request built from `connectParams` over the
stored auth token. (3) Those ConnectParams carry
minProtocol = maxProtocol = 3, the client identity block
(id, displayName, version, platform, mode), a role, a scopes list, a
caps list, and an auth block exactly when a token was supplied.
(4) Along any input trace from a fresh client containing no
connect.challenge event, no frame with method "connect" is ever sent. -/
theorem challenge_gated_handshake :
    (∀ c : GatewayClient,
      (c.onOpen).1.connState = .WaitingForChallenge ∧ (c.onOpen).2 = []) ∧
    (∀ (c : GatewayClient) (json : Json) (fid : String) (p : Json),
      json.optStringD "type" "" = "event" →
      json.optStringD "event" "" = "connect.challenge" →
      json.optJSONObject "payload" = some p →
      (json.lookup "seq" = none ∨ ∃ n : Int, json.lookup "seq" = some (.num n)) →
      (c.handleMessage json fid).1.connState = .Authenticating ∧
      (c.handleMessage json fid).2.filter isSendFrame =
        [ClientAct.sendFrame (reqFrame fid "connect" (connectParams c.authToken))]) ∧
    (∀ tok : Option String,
      (connectParams tok).lookup "minProtocol" = some (.num 3) ∧
      (connectParams tok).lookup "maxProtocol" = some (.num 3) ∧
      (connectParams tok).lookup "client" = some connectClientInfo ∧
      (connectParams tok).lookup "role" = some (.str "operator") ∧
      (connectParams tok).lookup "scopes" = some (.arr [.str "operator.admin"]) ∧
      (connectParams tok).lookup "caps" = some (.arr []) ∧
      (connectParams tok).lookup "auth" =
        tok.map (fun t => .obj [("token", .str t)])) ∧
    (∀ inputs : List ClientInput,
      (∀ i ∈ inputs, isChallengeInput i = false) →
      ∀ a ∈ (runClient initClient inputs).2, isConnectSend a = false) := by
  refine ⟨fun c => ⟨rfl, rfl⟩, handleMessage_challenge, ?_, ?_⟩
  · intro tok
    cases tok <;> exact ⟨rfl, rfl, rfl, rfl, rfl, rfl, rfl⟩
  · intro inputs hch
    exact (runClient_safe inputs initClient rfl rfl hch).2.2

/-- Witness for C4: a waiting client receiving a concrete
connect.challenge event authenticates and sends the one connect request;
and a concrete challenge-free trace (connect API call, socket open, a
tick event, a premature sendMethod, server close) never sends a connect
request. -/
theorem challenge_gated_handshake_witness :
    ((c4Client.handleMessage c4Challenge "rid1").1.connState = .Authenticating ∧
     (c4Client.handleMessage c4Challenge "rid1").2.filter isSendFrame =
       [ClientAct.sendFrame (reqFrame "rid1" "connect"
         (connectParams (some "tk")))]) ∧
    (∀ a ∈ (runClient initClient c4Trace).2, isConnectSend a = false) := by
  constructor
  · exact challenge_gated_handshake.2.1 c4Client c4Challenge
      "rid1" (.obj [("nonce", .str "n1")]) rfl rfl rfl (Or.inr ⟨1, rfl⟩)
  · exact challenge_gated_handshake.2.2.2 c4Trace (by decide)
